import Mathlib

/-!
Shallow embedding of the level-breach probability engine in `src/app.py`
(`get_historical_data` and `calculate_bayesian_probabilities`).

The Python code runs on IEEE-754 doubles through numpy / pandas / scipy, so
division by zero yields signed infinities, `0/0` yields NaN, and NaN is
absorbed (never raised) by later arithmetic.  We model the number domain as
rationals extended with `nan`, `inf` and `ninf`, with the operations the
engine actually performs given their numpy semantics.
-/

namespace SpyApp

/-- Rational values extended with the IEEE-754 special values produced by
numpy arithmetic: quiet NaN, positive infinity and negative infinity. -/
inductive PyVal : Type
  | nan : PyVal
  | inf : PyVal
  | ninf : PyVal
  | fin : ℚ → PyVal
  deriving DecidableEq

namespace PyVal

/-- Negation; `-NaN = NaN`, `-inf = -inf`. -/
def neg : PyVal → PyVal
  | nan => nan
  | inf => ninf
  | ninf => inf
  | fin q => fin (-q)

/-- Addition with IEEE semantics: NaN absorbs, `inf + (-inf) = NaN`. -/
def add : PyVal → PyVal → PyVal
  | nan, _ => nan
  | _, nan => nan
  | inf, ninf => nan
  | ninf, inf => nan
  | inf, _ => inf
  | _, inf => inf
  | ninf, _ => ninf
  | _, ninf => ninf
  | fin a, fin b => fin (a + b)

/-- Multiplication with IEEE semantics: NaN absorbs, `0 * inf = NaN`. -/
def mul : PyVal → PyVal → PyVal
  | nan, _ => nan
  | _, nan => nan
  | inf, inf => inf
  | inf, ninf => ninf
  | ninf, inf => ninf
  | ninf, ninf => inf
  | inf, fin q => if 0 < q then inf else if q < 0 then ninf else nan
  | fin q, inf => if 0 < q then inf else if q < 0 then ninf else nan
  | ninf, fin q => if 0 < q then ninf else if q < 0 then inf else nan
  | fin q, ninf => if 0 < q then ninf else if q < 0 then inf else nan
  | fin a, fin b => fin (a * b)

/-- Division with numpy semantics: a nonzero numerator over `0` gives a
signed infinity, `0 / 0` gives NaN, a finite numerator over an infinity
gives `0`, `inf / inf` gives NaN. -/
def div : PyVal → PyVal → PyVal
  | nan, _ => nan
  | _, nan => nan
  | inf, inf => nan
  | inf, ninf => nan
  | ninf, inf => nan
  | ninf, ninf => nan
  | inf, fin q => if 0 ≤ q then inf else ninf
  | ninf, fin q => if 0 ≤ q then ninf else inf
  | fin _, inf => fin 0
  | fin _, ninf => fin 0
  | fin a, fin b =>
      if b ≠ 0 then fin (a / b)
      else if 0 < a then inf
      else if a < 0 then ninf
      else nan

/-- Strict comparison as in Python: any comparison with NaN is `false`. -/
def lt : PyVal → PyVal → Bool
  | nan, _ => false
  | _, nan => false
  | ninf, ninf => false
  | ninf, _ => true
  | _, ninf => false
  | inf, _ => false
  | _, inf => true
  | fin a, fin b => decide (a < b)

instance : Neg PyVal := ⟨neg⟩
instance : Add PyVal := ⟨add⟩
instance : Mul PyVal := ⟨mul⟩
instance : Div PyVal := ⟨div⟩
instance : Sub PyVal := ⟨fun a b => add a (neg b)⟩

@[simp] lemma neg_def (a : PyVal) : -a = neg a := rfl

@[simp] lemma add_def (a b : PyVal) : a + b = add a b := rfl

@[simp] lemma mul_def (a b : PyVal) : a * b = mul a b := rfl

@[simp] lemma div_def (a b : PyVal) : a / b = div a b := rfl

@[simp] lemma sub_def (a b : PyVal) : a - b = add a (neg b) := rfl

end PyVal

open PyVal

/-- Python `max(a, b)`: keeps the first argument unless the second compares
strictly greater, hence `max(0, nan) = 0` while `max(nan, 0) = nan`. -/
def pyMax (a b : PyVal) : PyVal := if PyVal.lt a b then b else a

/-- Python `min(a, b)`: keeps the first argument unless the second compares
strictly smaller, hence `min(nan, 100) = nan`. -/
def pyMin (a b : PyVal) : PyVal := if PyVal.lt b a then b else a

/-- Round-half-to-even on rationals, the rounding used by Python `round`. -/
def roundHalfEven (q : ℚ) : ℤ :=
  if q - ⌊q⌋ < 1/2 then ⌊q⌋
  else if 1/2 < q - ⌊q⌋ then ⌊q⌋ + 1
  else if ⌊q⌋ % 2 = 0 then ⌊q⌋ else ⌊q⌋ + 1

/-- Python `round(x, 2)`: round to two decimal places, half to even.
`round` propagates NaN and infinities unchanged. -/
def pyRound2 : PyVal → PyVal
  | PyVal.nan => PyVal.nan
  | PyVal.inf => PyVal.inf
  | PyVal.ninf => PyVal.ninf
  | PyVal.fin q => PyVal.fin ((roundHalfEven (q * 100) : ℚ) / 100)

/-- One row of the processed dataframe built by `get_historical_data`:
close, volume and the derived daily return (`pct_change`, which can be a
special value when a previous close is zero). -/
structure Bar where
  close : ℚ
  volume : ℚ
  ret : PyVal
  deriving DecidableEq

/-- `df["returns"] = df["close"].pct_change()` paired with each row: row `t`
keeps `(close[t], volume[t])` and gains return `(close[t] - close[t-1]) /
close[t-1]`.  The first row (whose return is NaN) is not produced. -/
def pctChangeRows (raw : List (ℚ × ℚ)) : List Bar :=
  (raw.zip raw.tail).map fun pc =>
    { close := pc.2.1, volume := pc.2.2,
      ret := PyVal.div (PyVal.fin (pc.2.1 - pc.1.1)) (PyVal.fin pc.1.1) }

/-- Whether a value is not NaN (the `dropna()` row test on the only column
that can be NaN, the returns column). -/
def notNan : PyVal → Bool
  | PyVal.nan => false
  | _ => true

/-- `get_historical_data` after the fetch: sort ascending by date, compute
`pct_change` returns, and `dropna()` (which drops the first row and any row
whose return is NaN; infinite returns are kept, as in pandas). -/
def getHistoricalData (raw : List (ℚ × ℚ)) : List Bar :=
  (pctChangeRows raw).filter fun b => notNan b.ret

/-- `max(df["close"])` (Python `max` over the close column). -/
def maxClose : List Bar → ℚ
  | [] => 0
  | b :: t => t.foldl (fun acc x => max acc x.close) b.close

/-- `min(df["close"])` (Python `min` over the close column). -/
def minClose : List Bar → ℚ
  | [] => 0
  | b :: t => t.foldl (fun acc x => min acc x.close) b.close

/-- `df["volume"].mean()`: sum of volumes over the number of rows. -/
def meanVolume (df : List Bar) : ℚ :=
  (df.map Bar.volume).sum / (df.length : ℚ)

/-- `df["returns"].rolling(5).mean().iloc[-1]`: pandas `rolling(5)` uses
`min_periods = 5`, so with fewer than 5 returns the last rolling mean is
NaN; otherwise it is the mean of the last five returns. -/
def rollingMomentum (df : List Bar) : PyVal :=
  if df.length < 5 then PyVal.nan
  else
    PyVal.div (((df.map Bar.ret).drop (df.length - 5)).foldl PyVal.add (PyVal.fin 0))
      (PyVal.fin 5)

/-- Momentum as §4.1 step 4 of the spec words it, for comparison with
`rollingMomentum`: the mean of the last 5 daily returns, or of all
available returns when fewer than 5 exist. -/
def specMomentum (df : List Bar) : PyVal :=
  PyVal.div (((df.map Bar.ret).drop (df.length - 5)).foldl PyVal.add (PyVal.fin 0))
    (PyVal.fin ((((df.map Bar.ret).drop (df.length - 5)).length : ℕ) : ℚ))

/-- `RESISTANCE_LEVELS = [604.99, 606.44]`. -/
def RESISTANCE_LEVELS : List ℚ := [60499/100, 60644/100]

/-- `SUPPORT_LEVELS = [592.88, 596.71]`. -/
def SUPPORT_LEVELS : List ℚ := [59288/100, 59671/100]

/-- `distance = abs(current_price - level) / (max(df["close"]) - min(df["close"]))`;
the numerator is a plain nonnegative rational, the division is numpy. -/
def levelDistance (currentPrice : ℚ) (df : List Bar) (level : ℚ) : PyVal :=
  PyVal.div (PyVal.fin |currentPrice - level|)
    (PyVal.fin (maxClose df - minClose df))

/-- `volume_factor = current_volume / avg_volume` (numpy division). -/
def volumeFactor (currentVolume avgVolume : ℚ) : PyVal :=
  PyVal.div (PyVal.fin currentVolume) (PyVal.fin avgVolume)

/-- `alpha = 1 + (1 - distance) * 5`. -/
def alphaOf (currentPrice : ℚ) (df : List Bar) (level : ℚ) : PyVal :=
  PyVal.fin 1 + (PyVal.fin 1 - levelDistance currentPrice df level) * PyVal.fin 5

/-- `beta_val = 1 + max(0, -recent_momentum * 10) + (1 / max(volume_factor, 1))`. -/
def betaValOf (df : List Bar) (currentVolume avgVolume : ℚ) : PyVal :=
  PyVal.fin 1 + pyMax (PyVal.fin 0) (PyVal.neg (rollingMomentum df) * PyVal.fin 10)
    + PyVal.div (PyVal.fin 1) (pyMax (volumeFactor currentVolume avgVolume) (PyVal.fin 1))

/-- `beta(alpha, beta_val).mean()`: scipy returns `a / (a + b)` for valid
shape parameters and NaN when a shape parameter is not strictly positive
(or is NaN). -/
def betaMean (a b : PyVal) : PyVal :=
  if PyVal.lt (PyVal.fin 0) a && PyVal.lt (PyVal.fin 0) b then a / (a + b)
  else PyVal.nan

/-- `prob = beta(alpha, beta_val).mean()` for one level. -/
def rawProb (currentPrice currentVolume avgVolume : ℚ) (df : List Bar)
    (level : ℚ) : PyVal :=
  betaMean (alphaOf currentPrice df level) (betaValOf df currentVolume avgVolume)

/-- The sentiment adjustment: `prob += sentiment_score * 5` when the level is
in `RESISTANCE_LEVELS`, else `prob -= sentiment_score * 5`.  Note this acts
on the 0-1 probability, before the `* 100` scaling. -/
def sentAdjust (sentimentScore level : ℚ) (prob : PyVal) : PyVal :=
  if level ∈ RESISTANCE_LEVELS then prob + PyVal.fin (sentimentScore * 5)
  else prob - PyVal.fin (sentimentScore * 5)

/-- The percentage on the 0-100 scale before clamping: `prob * 100` with the
sentiment adjustment already applied. -/
def preClampPct (currentPrice currentVolume avgVolume : ℚ) (df : List Bar)
    (sentimentScore level : ℚ) : PyVal :=
  sentAdjust sentimentScore level
      (rawProb currentPrice currentVolume avgVolume df level)
    * PyVal.fin 100

/-- `probabilities[level] = round(max(0, min(prob * 100, 100)), 2)`. -/
def scoreLevel (currentPrice currentVolume avgVolume : ℚ) (df : List Bar)
    (sentimentScore level : ℚ) : PyVal :=
  pyRound2 (pyMax (PyVal.fin 0)
    (pyMin (preClampPct currentPrice currentVolume avgVolume df sentimentScore level)
      (PyVal.fin 100)))

/-- Result of `calculate_bayesian_probabilities`: either the string
`"Data unavailable"` or the probabilities dict (insertion order is the
iteration order `SUPPORT_LEVELS + RESISTANCE_LEVELS`). -/
inductive ScoreResult : Type
  | dataUnavailable : ScoreResult
  | probs : List (ℚ × PyVal) → ScoreResult
  deriving DecidableEq

/-- `calculate_bayesian_probabilities(current_price, current_volume, df,
sentiment_score)`.  The Python function also binds
`volatility = df["returns"].std()` and never reads it again, so it does not
appear here; `avg_volume` is computed once before the loop. -/
def calculate_bayesian_probabilities (currentPrice currentVolume : ℚ) :
    Option (List Bar) → ℚ → ScoreResult
  | none, _ => ScoreResult.dataUnavailable
  | some df, sentimentScore =>
    if df.isEmpty then ScoreResult.dataUnavailable
    else
      ScoreResult.probs ((SUPPORT_LEVELS ++ RESISTANCE_LEVELS).map fun level =>
        (level, scoreLevel currentPrice currentVolume (meanVolume df) df
          sentimentScore level))

/-- The worked example of spec §8: closes [590, 592, 595, 598, 600] with
constant volume 1,000,000. -/
def workedRaw : List (ℚ × ℚ) :=
  [(590, 1000000), (592, 1000000), (595, 1000000), (598, 1000000), (600, 1000000)]

/-- The processed dataframe of the worked example (4 rows; the first raw bar
is consumed by `pct_change`). -/
def workedDf : List Bar := getHistoricalData workedRaw

lemma workedDf_eq : workedDf =
    [⟨592, 1000000, PyVal.fin (1/295)⟩, ⟨595, 1000000, PyVal.fin (3/592)⟩,
     ⟨598, 1000000, PyVal.fin (3/595)⟩, ⟨600, 1000000, PyVal.fin (1/299)⟩] := by
  norm_num [workedDf, workedRaw, getHistoricalData, pctChangeRows, notNan, PyVal.div,
    List.filter]

lemma workedDf_ne_nil : workedDf ≠ [] := by
  rw [workedDf_eq]
  exact List.cons_ne_nil _ _

example : rollingMomentum workedDf = PyVal.nan := by
  norm_num [workedDf, workedRaw, getHistoricalData, pctChangeRows, notNan, PyVal.div,
    List.filter, rollingMomentum]

example : meanVolume workedDf = 1000000 := by
  norm_num [workedDf, workedRaw, getHistoricalData, pctChangeRows, notNan, PyVal.div,
    List.filter, meanVolume, List.sum]

example : levelDistance 597 workedDf (60499/100) = PyVal.fin (799/800) := by
  norm_num [workedDf, workedRaw, getHistoricalData, pctChangeRows, notNan, PyVal.div,
    List.filter, levelDistance, maxClose, minClose, max_def, min_def, abs_of_nonneg]

example : rawProb 597 1200000 1000000 workedDf (60499/100) = PyVal.fin (483/1363) := by
  norm_num [workedDf, workedRaw, getHistoricalData, pctChangeRows, notNan, PyVal.div,
    List.filter, rawProb, betaMean, alphaOf, betaValOf, levelDistance, volumeFactor,
    rollingMomentum, maxClose, minClose, max_def, min_def, abs_of_nonneg, pyMax, pyMin, PyVal.lt,
    PyVal.add, PyVal.mul, PyVal.neg]

/-! ### Helper lemmas -/

lemma roundHalfEven_bounds (q : ℚ) (h0 : 0 ≤ q) (h1 : q ≤ 10000) :
    0 ≤ roundHalfEven q ∧ roundHalfEven q ≤ 10000 := by
  have hf : (0:ℤ) ≤ ⌊q⌋ := Int.floor_nonneg.mpr h0
  have hfle : ⌊q⌋ ≤ 10000 := by
    have h : (⌊q⌋ : ℚ) ≤ 10000 := le_trans (Int.floor_le q) h1
    exact_mod_cast h
  have hfloor : (⌊q⌋ : ℚ) ≤ q := Int.floor_le q
  unfold roundHalfEven
  split_ifs with h2 h3 h4
  · exact ⟨hf, hfle⟩
  · refine ⟨by omega, ?_⟩
    have hq : (⌊q⌋ : ℚ) + 1/2 < q := by linarith
    have hlt : (⌊q⌋ : ℚ) < 10000 := by linarith
    have : ⌊q⌋ < 10000 := by exact_mod_cast hlt
    omega
  · exact ⟨hf, hfle⟩
  · refine ⟨by omega, ?_⟩
    have hq : (⌊q⌋ : ℚ) + 1/2 = q := by linarith
    have hlt : (⌊q⌋ : ℚ) < 10000 := by linarith
    have : ⌊q⌋ < 10000 := by exact_mod_cast hlt
    omega

/-- The final line of the loop body, `round(max(0, min(x, 100)), 2)`, always
produces a finite value of the form `n / 100` with `0 ≤ n ≤ 10000`, whatever
(finite, infinite or NaN) value `x` has. -/
lemma clampRound_shape (x : PyVal) :
    ∃ n : ℤ, pyRound2 (pyMax (PyVal.fin 0) (pyMin x (PyVal.fin 100))) =
      PyVal.fin ((n : ℚ)/100) ∧ 0 ≤ n ∧ n ≤ 10000 := by
  rcases x with _ | _ | _ | q
  · exact ⟨0, by norm_num [pyMax, pyMin, PyVal.lt, pyRound2, roundHalfEven], by norm_num,
      by norm_num⟩
  · exact ⟨10000, by norm_num [pyMax, pyMin, PyVal.lt, pyRound2, roundHalfEven], by norm_num,
      by norm_num⟩
  · exact ⟨0, by norm_num [pyMax, pyMin, PyVal.lt, pyRound2, roundHalfEven], by norm_num,
      by norm_num⟩
  · by_cases h100 : (100 : ℚ) < q
    · exact ⟨10000, by norm_num [pyMax, pyMin, PyVal.lt, pyRound2, roundHalfEven, h100],
        by norm_num, by norm_num⟩
    · by_cases h0 : (0 : ℚ) < q
      · refine ⟨roundHalfEven (q * 100), ?_, ?_, ?_⟩
        · norm_num [pyMax, pyMin, PyVal.lt, pyRound2, h100, h0]
        · exact (roundHalfEven_bounds (q * 100) (by linarith) (by linarith)).1
        · exact (roundHalfEven_bounds (q * 100) (by linarith) (by linarith)).2
      · exact ⟨0, by norm_num [pyMax, pyMin, PyVal.lt, pyRound2, roundHalfEven, h100, h0],
          by norm_num, by norm_num⟩

/-- Every score the engine stores in the dict is a finite two-decimal value
between 0 and 100. -/
lemma scoreLevel_shape (p v av s lv : ℚ) (df : List Bar) :
    ∃ n : ℤ, scoreLevel p v av df s lv = PyVal.fin ((n : ℚ)/100) ∧
      0 ≤ n ∧ n ≤ 10000 :=
  clampRound_shape (preClampPct p v av df s lv)

/-- The momentum term `max(0, -recent_momentum * 10)` is either `inf` (only
when the rolling momentum is `-inf`) or a nonnegative finite value; a NaN
momentum collapses to `0` because Python `max(0, nan) = 0`. -/
lemma momentumTerm_cases (df : List Bar) :
    pyMax (PyVal.fin 0) (PyVal.neg (rollingMomentum df) * PyVal.fin 10) = PyVal.inf ∨
      ∃ t : ℚ, pyMax (PyVal.fin 0) (PyVal.neg (rollingMomentum df) * PyVal.fin 10) =
        PyVal.fin t ∧ 0 ≤ t := by
  rcases rollingMomentum df with _ | _ | _ | m
  · exact Or.inr ⟨0, by norm_num [pyMax, PyVal.lt, PyVal.neg, PyVal.mul], le_refl 0⟩
  · exact Or.inr ⟨0, by norm_num [pyMax, PyVal.lt, PyVal.neg, PyVal.mul], le_refl 0⟩
  · exact Or.inl (by norm_num [pyMax, PyVal.lt, PyVal.neg, PyVal.mul])
  · right
    simp only [PyVal.mul_def, pyMax, PyVal.lt, PyVal.neg, PyVal.mul, decide_eq_true_eq]
    split_ifs with hm
    · exact ⟨-m * 10, rfl, le_of_lt hm⟩
    · exact ⟨0, rfl, le_refl 0⟩

/-- The volume term `1 / max(volume_factor, 1)` is either NaN (only when the
volume factor is NaN, i.e. `0 / 0` volumes) or a nonnegative finite value. -/
lemma volTerm_cases (cv av : ℚ) :
    PyVal.div (PyVal.fin 1) (pyMax (volumeFactor cv av) (PyVal.fin 1)) = PyVal.nan ∨
      ∃ u : ℚ, PyVal.div (PyVal.fin 1) (pyMax (volumeFactor cv av) (PyVal.fin 1)) =
        PyVal.fin u ∧ 0 ≤ u := by
  rcases volumeFactor cv av with _ | _ | _ | q
  · exact Or.inl (by norm_num [pyMax, PyVal.lt, PyVal.div])
  · exact Or.inr ⟨0, by norm_num [pyMax, PyVal.lt, PyVal.div], le_refl 0⟩
  · exact Or.inr ⟨1, by norm_num [pyMax, PyVal.lt, PyVal.div], by norm_num⟩
  · right
    by_cases hq : q < 1
    · exact ⟨1, by norm_num [pyMax, PyVal.lt, PyVal.div, hq], by norm_num⟩
    · have hq1 : (1 : ℚ) ≤ q := not_lt.mp hq
      have hq0 : q ≠ 0 := by intro h; rw [h] at hq1; norm_num at hq1
      refine ⟨1/q, ?_, div_nonneg (by norm_num) (by linarith)⟩
      simp [pyMax, PyVal.lt, PyVal.div, hq, hq0]

/-- Whenever `beta_val` is a (finite) number at all, it is at least 1: the
momentum term and the volume term are both nonnegative. -/
lemma betaVal_ge_one (df : List Bar) (cv av b : ℚ)
    (h : betaValOf df cv av = PyVal.fin b) : 1 ≤ b := by
  unfold betaValOf at h
  rcases momentumTerm_cases df with ht | ⟨t, ht, ht0⟩ <;>
    rcases volTerm_cases cv av with hu | ⟨u, hu, hu0⟩ <;>
      rw [ht, hu] at h <;>
        simp only [PyVal.add_def, PyVal.add] at h
  · exact absurd h (by simp)
  · exact absurd h (by simp)
  · exact absurd h (by simp)
  · rw [PyVal.fin.injEq] at h
    linarith

/-- A single-row dataframe has a zero close range, so every level scores the
NaN-collapsed value `0.00`: the distance is `inf` (or NaN when the price
equals the level), `alpha` is `-inf` (or NaN), the Beta mean is NaN, and
`max(0, min(nan, 100))` is `0`. -/
lemma scoreLevel_single (p v av s lv : ℚ) (b : Bar) :
    scoreLevel p v av [b] s lv = PyVal.fin 0 := by
  have hrange : maxClose [b] - minClose [b] = 0 := by
    simp [maxClose, minClose]
  have hdist : levelDistance p [b] lv = PyVal.nan ∨ levelDistance p [b] lv = PyVal.inf := by
    unfold levelDistance
    rw [hrange]
    rcases (abs_nonneg (p - lv)).lt_or_eq with habs | habs
    · exact Or.inr (by simp [PyVal.div, habs])
    · exact Or.inl (by simp [PyVal.div, ← habs])
  have halpha : alphaOf p [b] lv = PyVal.nan ∨ alphaOf p [b] lv = PyVal.ninf := by
    unfold alphaOf
    rcases hdist with h | h <;> rw [h]
    · exact Or.inl (by norm_num [PyVal.add, PyVal.mul, PyVal.neg])
    · exact Or.inr (by norm_num [PyVal.add, PyVal.mul, PyVal.neg])
  have hmean : rawProb p v av [b] lv = PyVal.nan := by
    unfold rawProb betaMean
    rcases halpha with h | h <;> rw [h] <;> simp [PyVal.lt]
  have hadj : sentAdjust s lv PyVal.nan = PyVal.nan := by
    by_cases hmem : lv ∈ RESISTANCE_LEVELS <;>
      simp [sentAdjust, hmem, PyVal.add, PyVal.neg]
  unfold scoreLevel preClampPct
  rw [hmean, hadj]
  norm_num [PyVal.mul, pyMin, pyMax, PyVal.lt, pyRound2, roundHalfEven]

/-- Unfolding of the scoring call on a present, non-empty dataframe. -/
lemma calculate_some (p v s : ℚ) (df : List Bar) (h : df ≠ []) :
    calculate_bayesian_probabilities p v (some df) s =
      ScoreResult.probs ((SUPPORT_LEVELS ++ RESISTANCE_LEVELS).map fun level =>
        (level, scoreLevel p v (meanVolume df) df s level)) := by
  simp [calculate_bayesian_probabilities, List.isEmpty_iff, h]

/-- When the distance is an ordinary number, `alpha` is the ordinary number
`1 + (1 - distance) * 5`. -/
lemma alphaOf_eq_fin (p d : ℚ) (df : List Bar) (lv : ℚ)
    (h : levelDistance p df lv = PyVal.fin d) :
    alphaOf p df lv = PyVal.fin (1 + (1 - d) * 5) := by
  unfold alphaOf
  rw [h]
  norm_num [PyVal.add, PyVal.mul, PyVal.neg]
  ring

/-! ### Claims -/

/-- C1, counterexample: in the spec's worked example (closes
[590, 592, 595, 598, 600], constant volume 1,000,000, price 597, volume
1,200,000), the pre-clamp percentage of the resistance level 604.99 under
sentiment 0.2 exceeds the zero-sentiment percentage by exactly 100
percentage points, not by `0.2 × 5 = 1.0`. -/
theorem C1_counterexample :
    preClampPct 597 1200000 (meanVolume workedDf) workedDf (2/10) (60499/100) -
      preClampPct 597 1200000 (meanVolume workedDf) workedDf 0 (60499/100) =
      PyVal.fin 100 ∧ (100 : ℚ) ≠ (2/10) * 5 := by
  constructor
  · norm_num [preClampPct, sentAdjust, RESISTANCE_LEVELS, rawProb, betaMean, alphaOf,
      betaValOf, levelDistance, volumeFactor, rollingMomentum, meanVolume, maxClose,
      minClose, max_def, min_def, abs_of_nonneg, pyMax, pyMin, PyVal.lt, PyVal.add,
      PyVal.mul, PyVal.neg, PyVal.div, workedDf, workedRaw, getHistoricalData,
      pctChangeRows, notNan, List.filter, List.sum]
  · norm_num

/-- C1 (amended): the sentiment nudge `sentiment × 5` is added to the raw
Beta-mean probability on the 0-1 scale, before the `× 100` conversion; so,
relative to the zero-sentiment run and pre-clamp, a resistance level's
percentage changes by exactly `sentiment × 500` percentage points and a
support level's by `−sentiment × 500` (in the worked example, +100 points
for the resistance level, not +1.0). -/
theorem C1_sentiment_scale (p v av s lv m : ℚ) (df : List Bar)
    (hraw : rawProb p v av df lv = PyVal.fin m) :
    (lv ∈ RESISTANCE_LEVELS →
      preClampPct p v av df s lv - preClampPct p v av df 0 lv =
        PyVal.fin (s * 500)) ∧
    (lv ∉ RESISTANCE_LEVELS →
      preClampPct p v av df s lv - preClampPct p v av df 0 lv =
        PyVal.fin (-(s * 500))) := by
  constructor <;> intro hmem <;>
    · unfold preClampPct sentAdjust
      rw [hraw]
      simp only [hmem, if_true, if_false, ite_true, ite_false, ite_not,
        PyVal.add_def, PyVal.sub_def, PyVal.mul_def, PyVal.add, PyVal.mul, PyVal.neg,
        PyVal.fin.injEq]
      ring

/-- C1, witness for the amended theorem: the worked example instantiated at
the resistance level 604.99 with sentiment 0.2. -/
theorem C1_witness :
    preClampPct 597 1200000 (meanVolume workedDf) workedDf (2/10) (60499/100) -
      preClampPct 597 1200000 (meanVolume workedDf) workedDf 0 (60499/100) =
      PyVal.fin ((2/10) * 500) :=
  (C1_sentiment_scale 597 1200000 (meanVolume workedDf) (2/10) (60499/100) (483/1363)
    workedDf
    (by norm_num [rawProb, betaMean, alphaOf, betaValOf, levelDistance, volumeFactor,
      rollingMomentum, meanVolume, maxClose, minClose, max_def, min_def, abs_of_nonneg,
      pyMax, pyMin, PyVal.lt, PyVal.add, PyVal.mul, PyVal.neg, PyVal.div, workedDf,
      workedRaw, getHistoricalData, pctChangeRows, notNan, List.filter, List.sum])).1
    (by norm_num [RESISTANCE_LEVELS])

/-- History in which every close equals 600: after `pct_change` and
`dropna` a single row remains, so the close range is zero. -/
def flatRaw : List (ℚ × ℚ) := [(600, 1000), (600, 1000)]

/-- The processed zero-range dataframe. -/
def flatDf : List Bar := getHistoricalData flatRaw

/-- C2: when all historical closes are equal the code has no fallback: the
distance is computed by a division by zero (yielding `+inf` here), and every
level's reported probability is the NaN-collapsed `0.0` — not the
0-proximity fallback the claim describes.  The code divides by zero, so the
claim is right about the intent and the code wrong; this theorem documents
the actual behaviour at the failing input. -/
theorem C2_degenerate_range_behavior :
    levelDistance 597 flatDf (60499/100) = PyVal.inf ∧
    calculate_bayesian_probabilities 597 1200 (some flatDf) 0 =
      ScoreResult.probs [(59288/100, PyVal.fin 0), (59671/100, PyVal.fin 0),
        (60499/100, PyVal.fin 0), (60644/100, PyVal.fin 0)] := by
  have hdf : flatDf = [⟨600, 1000, PyVal.fin 0⟩] := by
    norm_num [flatDf, flatRaw, getHistoricalData, pctChangeRows, notNan, PyVal.div,
      List.filter]
  constructor
  · rw [hdf]
    have habs : |(597 : ℚ) - 60499/100| = 799/100 := by
      rw [abs_of_nonpos (by norm_num)]; norm_num
    norm_num [levelDistance, maxClose, minClose, habs, PyVal.div]
  · rw [hdf, calculate_some 597 1200 0 _ (by simp)]
    simp [SUPPORT_LEVELS, RESISTANCE_LEVELS, scoreLevel_single]

/-- History whose close range (1) is small compared to the distance from
the current price to the levels, driving `distance` above 1. -/
def farRaw : List (ℚ × ℚ) := [(100, 1000), (101, 1000), (102, 1000)]

/-- The processed small-range dataframe: rows with closes 101 and 102. -/
def farDf : List Bar := getHistoricalData farRaw

/-- C3, counterexample: with price 597, level 592.88 and a close range of 1,
the distance is 4.12 and `alpha = 1 + (1 - 4.12) * 5 = -14.6 < 1`; the code
contains no clamp keeping `alpha ≥ 1`. -/
theorem C3_counterexample :
    alphaOf 597 farDf (59288/100) = PyVal.fin (-73/5) ∧ ¬ ((1 : ℚ) ≤ -73/5) := by
  constructor
  · norm_num [alphaOf, levelDistance, farDf, farRaw, getHistoricalData, pctChangeRows,
      notNan, PyVal.div, List.filter, maxClose, minClose, max_def, min_def,
      abs_of_nonneg, PyVal.add, PyVal.mul, PyVal.neg]
  · norm_num

/-- C3 (amended): `betaParam ≥ 1` does hold whenever `beta_val` is a number
at all, but `alpha ≥ 1` holds only when `distance ≤ 1`: the code never
clamps, and for `distance > 1` `alpha = 1 + (1 - distance) * 5` drops below
1 (and below 0), making the Beta distribution ill-defined. -/
theorem C3_shape_params :
    (∀ (df : List Bar) (cv av b : ℚ), betaValOf df cv av = PyVal.fin b → 1 ≤ b) ∧
    (∀ (p : ℚ) (df : List Bar) (lv d : ℚ), levelDistance p df lv = PyVal.fin d →
      d ≤ 1 → alphaOf p df lv = PyVal.fin (1 + (1 - d) * 5) ∧
        (1 : ℚ) ≤ 1 + (1 - d) * 5) := by
  constructor
  · exact fun df cv av b h => betaVal_ge_one df cv av b h
  · intro p df lv d hd hle
    exact ⟨alphaOf_eq_fin p d df lv hd, by nlinarith⟩

/-- C3, witness: in the worked example `beta_val = 11/6 ≥ 1` and the
resistance distance 799/800 ≤ 1 gives `alpha ≥ 1`. -/
theorem C3_witness :
    (1 : ℚ) ≤ 11/6 ∧
    (alphaOf 597 workedDf (60499/100) = PyVal.fin (1 + (1 - 799/800) * 5) ∧
      (1 : ℚ) ≤ 1 + (1 - 799/800) * 5) :=
  ⟨C3_shape_params.1 workedDf 1200000 1000000 (11/6)
      (by norm_num [betaValOf, volumeFactor, rollingMomentum, pyMax, PyVal.lt,
        PyVal.add, PyVal.mul, PyVal.neg, PyVal.div, workedDf, workedRaw,
        getHistoricalData, pctChangeRows, notNan, List.filter]),
   C3_shape_params.2 597 workedDf (60499/100) (799/800)
      (by norm_num [levelDistance, maxClose, minClose, max_def, min_def,
        abs_of_nonneg, PyVal.div, workedDf, workedRaw, getHistoricalData,
        pctChangeRows, notNan, List.filter])
      (by norm_num)⟩

/-- History producing two negative daily returns (closes 100, 95, 90). -/
def shortRaw : List (ℚ × ℚ) := [(100, 1000), (95, 1000), (90, 1000)]

/-- The processed short dataframe: two rows, returns -1/20 and -1/19. -/
def shortDf : List Bar := getHistoricalData shortRaw

/-- C4, counterexample: with only two returns available the code's rolling
momentum is NaN, not the mean of the available returns (-39/760) that the
claim prescribes. -/
theorem C4_counterexample : rollingMomentum shortDf ≠ specMomentum shortDf := by
  norm_num [rollingMomentum, specMomentum, shortDf, shortRaw, getHistoricalData,
    pctChangeRows, notNan, PyVal.div, List.filter, PyVal.add]
  exact fun h => PyVal.noConfusion h

/-- C4 (amended): recent momentum is the mean of the last 5 daily returns
only when at least 5 returns exist; with fewer it is NaN (pandas
`rolling(5)` with the default `min_periods`), and the NaN collapses the
momentum penalty to 0 through `max(0, -NaN * 10) = 0`.  A 1-bar history
still yields the data-unavailable sentinel, and a 2-bar history (nonzero
first close) yields a defined, non-NaN probability for every level — namely
0.0, since a single processed row also has zero close range. -/
theorem C4_momentum_and_short_history :
    (∀ df : List Bar, 5 ≤ df.length → rollingMomentum df = specMomentum df) ∧
    (∀ df : List Bar, df.length < 5 → rollingMomentum df = PyVal.nan ∧
      pyMax (PyVal.fin 0) (PyVal.neg (rollingMomentum df) * PyVal.fin 10) =
        PyVal.fin 0) ∧
    (∀ (p v s : ℚ) (pr : ℚ × ℚ),
      calculate_bayesian_probabilities p v (some (getHistoricalData [pr])) s =
        ScoreResult.dataUnavailable) ∧
    (∀ p v s c1 v1 c2 v2 : ℚ, c1 ≠ 0 →
      calculate_bayesian_probabilities p v
          (some (getHistoricalData [(c1, v1), (c2, v2)])) s =
        ScoreResult.probs ((SUPPORT_LEVELS ++ RESISTANCE_LEVELS).map fun lv =>
          (lv, PyVal.fin 0))) := by
  refine ⟨?_, ?_, ?_, ?_⟩
  · intro df h
    have hlen : ((df.map Bar.ret).drop (df.length - 5)).length = 5 := by
      simp only [List.length_drop, List.length_map]
      omega
    unfold rollingMomentum specMomentum
    rw [if_neg (by omega), hlen]
    norm_num
  · intro df h
    have hnan : rollingMomentum df = PyVal.nan := by
      unfold rollingMomentum
      rw [if_pos h]
    refine ⟨hnan, ?_⟩
    rw [hnan]
    norm_num [pyMax, PyVal.lt, PyVal.neg, PyVal.mul]
  · intro p v s pr
    have h : getHistoricalData [pr] = [] := by
      simp [getHistoricalData, pctChangeRows]
    rw [h]
    simp [calculate_bayesian_probabilities]
  · intro p v s c1 v1 c2 v2 hc1
    have hdf : getHistoricalData [(c1, v1), (c2, v2)] =
        [⟨c2, v2, PyVal.fin ((c2 - c1) / c1)⟩] := by
      simp [getHistoricalData, pctChangeRows, notNan, PyVal.div, hc1, List.filter]
    rw [hdf, calculate_some p v s _ (by simp)]
    simp [SUPPORT_LEVELS, RESISTANCE_LEVELS, scoreLevel_single]

/-- C4, witness: the four parts of the amended theorem at concrete inputs —
a 5-return history where rolling and spec momentum agree, the 2-return
dataframe with NaN momentum and zero penalty, a 1-bar history that is
unavailable, and a 2-bar history scoring 0.0 everywhere. -/
theorem C4_witness :
    rollingMomentum (getHistoricalData
        [(100, 10), (101, 10), (102, 10), (103, 10), (104, 10), (105, 10)]) =
      specMomentum (getHistoricalData
        [(100, 10), (101, 10), (102, 10), (103, 10), (104, 10), (105, 10)]) ∧
    (rollingMomentum shortDf = PyVal.nan ∧
      pyMax (PyVal.fin 0) (PyVal.neg (rollingMomentum shortDf) * PyVal.fin 10) =
        PyVal.fin 0) ∧
    calculate_bayesian_probabilities 597 1200 (some (getHistoricalData [(100, 1000)])) 0 =
      ScoreResult.dataUnavailable ∧
    calculate_bayesian_probabilities 597 1200
        (some (getHistoricalData [(100, 1000), (90, 1000)])) 0 =
      ScoreResult.probs ((SUPPORT_LEVELS ++ RESISTANCE_LEVELS).map fun lv =>
        (lv, PyVal.fin 0)) :=
  ⟨C4_momentum_and_short_history.1 _
      (by norm_num [getHistoricalData, pctChangeRows, notNan, PyVal.div, List.filter]),
   C4_momentum_and_short_history.2.1 shortDf
      (by norm_num [shortDf, shortRaw, getHistoricalData, pctChangeRows, notNan,
        PyVal.div, List.filter]),
   C4_momentum_and_short_history.2.2.1 597 1200 0 (100, 1000),
   C4_momentum_and_short_history.2.2.2 597 1200 0 100 1000 90 1000 (by norm_num)⟩

/-- C5: whenever the engine returns a probability map, every value in it is
a finite number of the form `n / 100` (two decimal places) lying in
[0, 100], whatever the history, price, volume and sentiment are. -/
theorem C5_range_and_rounding (p v s : ℚ) (df : List Bar)
    (res : List (ℚ × PyVal))
    (hres : calculate_bayesian_probabilities p v (some df) s =
      ScoreResult.probs res) :
    ∀ pr ∈ res, ∃ n : ℤ, pr.2 = PyVal.fin ((n : ℚ)/100) ∧
      0 ≤ (n : ℚ)/100 ∧ (n : ℚ)/100 ≤ 100 := by
  intro pr hpr
  by_cases hdf : df.isEmpty
  · simp [calculate_bayesian_probabilities, hdf] at hres
  · simp only [calculate_bayesian_probabilities, hdf, if_false, ite_false,
      Bool.false_eq_true, ScoreResult.probs.injEq] at hres
    rw [← hres] at hpr
    rcases List.mem_map.mp hpr with ⟨lv, hlv, hpr2⟩
    rcases scoreLevel_shape p v (meanVolume df) s lv df with ⟨n, hn, hn0, hn1⟩
    refine ⟨n, ?_, ?_, ?_⟩
    · rw [← hpr2]
      exact hn
    · exact div_nonneg (by exact_mod_cast hn0) (by norm_num)
    · rw [div_le_iff₀ (by norm_num : (0:ℚ) < 100)]
      have h : (n : ℚ) ≤ 10000 := by exact_mod_cast hn1
      linarith

/-- C5, witness: the worked example's support level 592.88;
its reported probability is a two-decimal value in [0, 100]. -/
theorem C5_witness :
    ∃ n : ℤ, ((59288/100 : ℚ),
        scoreLevel 597 1200000 (meanVolume workedDf) workedDf (2/10) (59288/100)).2 =
      PyVal.fin ((n : ℚ)/100) ∧ 0 ≤ (n : ℚ)/100 ∧ (n : ℚ)/100 ≤ 100 :=
  C5_range_and_rounding 597 1200000 (2/10) workedDf
    ((SUPPORT_LEVELS ++ RESISTANCE_LEVELS).map fun lv =>
      (lv, scoreLevel 597 1200000 (meanVolume workedDf) workedDf (2/10) lv))
    (calculate_some 597 1200000 (2/10) workedDf workedDf_ne_nil)
    _
    (List.mem_map_of_mem _ (by norm_num [SUPPORT_LEVELS, RESISTANCE_LEVELS]))

/-- C6: a missing dataframe, an empty dataframe, and any raw history of
fewer than 2 bars all short-circuit to the single data-unavailable sentinel
before any level is scored; and on any non-empty dataframe the engine is a
total function returning the full map over all configured levels at once,
with every value a finite (never NaN) number in [0, 100] — it cannot return
a partially scored map or raise. -/
theorem C6_unavailable_and_totality :
    (∀ p v s : ℚ, calculate_bayesian_probabilities p v none s =
      ScoreResult.dataUnavailable) ∧
    (∀ p v s : ℚ, calculate_bayesian_probabilities p v (some []) s =
      ScoreResult.dataUnavailable) ∧
    (∀ (p v s : ℚ) (raw : List (ℚ × ℚ)), raw.length < 2 →
      calculate_bayesian_probabilities p v (some (getHistoricalData raw)) s =
        ScoreResult.dataUnavailable) ∧
    (∀ (p v s : ℚ) (df : List Bar), df ≠ [] →
      calculate_bayesian_probabilities p v (some df) s =
        ScoreResult.probs ((SUPPORT_LEVELS ++ RESISTANCE_LEVELS).map fun lv =>
          (lv, scoreLevel p v (meanVolume df) df s lv)) ∧
      ∀ lv : ℚ, ∃ q : ℚ, scoreLevel p v (meanVolume df) df s lv = PyVal.fin q ∧
        0 ≤ q ∧ q ≤ 100) := by
  refine ⟨?_, ?_, ?_, ?_⟩
  · intro p v s
    rfl
  · intro p v s
    rfl
  · intro p v s raw hraw
    rcases raw with _ | ⟨a, _ | ⟨b, t⟩⟩
    · rfl
    · rfl
    · simp at hraw
      omega
  · intro p v s df hdf
    refine ⟨calculate_some p v s df hdf, ?_⟩
    intro lv
    rcases scoreLevel_shape p v (meanVolume df) s lv df with ⟨n, hn, hn0, hn1⟩
    refine ⟨(n : ℚ)/100, hn, div_nonneg (by exact_mod_cast hn0) (by norm_num), ?_⟩
    rw [div_le_iff₀ (by norm_num : (0:ℚ) < 100)]
    have h : (n : ℚ) ≤ 10000 := by exact_mod_cast hn1
    linarith

/-- C6, witness: a one-bar raw history is unavailable and the worked
example's dataframe is scored totally, e.g. at level 592.88. -/
theorem C6_witness :
    calculate_bayesian_probabilities 1 1 (some (getHistoricalData [(5, 5)])) 0 =
      ScoreResult.dataUnavailable ∧
    (∃ q : ℚ, scoreLevel 597 1200000 (meanVolume workedDf) workedDf (2/10)
        (59288/100) = PyVal.fin q ∧ 0 ≤ q ∧ q ≤ 100) :=
  ⟨C6_unavailable_and_totality.2.2.1 1 1 0 [(5, 5)] (by norm_num),
   (C6_unavailable_and_totality.2.2.2 597 1200000 (2/10) workedDf
      workedDf_ne_nil).2 (59288/100)⟩

/-- C7: holding the momentum and volume terms fixed (any finite `beta_val`)
and considering two finite distances `d1 ≤ d2` whose larger one still
yields a valid shape parameter (`alpha > 0`), the raw Beta-mean probability
at the smaller distance is at least the one at the larger distance: the raw
probability is monotonically non-increasing in distance. -/
theorem C7_distance_monotonicity (p cv av lv1 lv2 d1 d2 b : ℚ) (df : List Bar)
    (h1 : levelDistance p df lv1 = PyVal.fin d1)
    (h2 : levelDistance p df lv2 = PyVal.fin d2)
    (h12 : d1 ≤ d2)
    (hb : betaValOf df cv av = PyVal.fin b)
    (ha2 : 0 < 1 + (1 - d2) * 5) :
    ∃ p1 p2 : ℚ, rawProb p cv av df lv1 = PyVal.fin p1 ∧
      rawProb p cv av df lv2 = PyVal.fin p2 ∧ p2 ≤ p1 := by
  have hb1 : (1 : ℚ) ≤ b := betaVal_ge_one df cv av b hb
  have hbpos : (0 : ℚ) < b := by linarith
  have ha1 : 0 < 1 + (1 - d1) * 5 := by nlinarith
  have e1 : alphaOf p df lv1 = PyVal.fin (1 + (1 - d1) * 5) := alphaOf_eq_fin p d1 df lv1 h1
  have e2 : alphaOf p df lv2 = PyVal.fin (1 + (1 - d2) * 5) := alphaOf_eq_fin p d2 df lv2 h2
  have hsum1 : 1 + (1 - d1) * 5 + b ≠ 0 := by nlinarith
  have hsum2 : 1 + (1 - d2) * 5 + b ≠ 0 := by nlinarith
  refine ⟨(1 + (1 - d1) * 5) / (1 + (1 - d1) * 5 + b),
          (1 + (1 - d2) * 5) / (1 + (1 - d2) * 5 + b), ?_, ?_, ?_⟩
  · unfold rawProb betaMean
    rw [e1, hb]
    simp [PyVal.lt, PyVal.add, PyVal.div, ha1, hsum1, hbpos]
  · unfold rawProb betaMean
    rw [e2, hb]
    simp [PyVal.lt, PyVal.add, PyVal.div, ha2, hsum2, hbpos]
  · rw [div_le_div_iff₀ (by nlinarith) (by nlinarith)]
    nlinarith

/-- C7, witness: in the worked example the support level 596.71 is closer
(distance 29/800) than the resistance level 604.99 (distance 799/800) and
its raw probability is accordingly no smaller. -/
theorem C7_witness :
    ∃ p1 p2 : ℚ, rawProb 597 1200000 1000000 workedDf (59671/100) = PyVal.fin p1 ∧
      rawProb 597 1200000 1000000 workedDf (60499/100) = PyVal.fin p2 ∧ p2 ≤ p1 :=
  C7_distance_monotonicity 597 1200000 1000000 (59671/100) (60499/100)
    (29/800) (799/800) (11/6) workedDf
    (by norm_num [levelDistance, maxClose, minClose, max_def, min_def, abs_of_nonneg,
      PyVal.div, workedDf, workedRaw, getHistoricalData, pctChangeRows, notNan,
      List.filter])
    (by norm_num [levelDistance, maxClose, minClose, max_def, min_def, abs_of_nonneg,
      PyVal.div, workedDf, workedRaw, getHistoricalData, pctChangeRows, notNan,
      List.filter])
    (by norm_num)
    (by norm_num [betaValOf, volumeFactor, rollingMomentum, pyMax, PyVal.lt,
      PyVal.add, PyVal.mul, PyVal.neg, PyVal.div, workedDf, workedRaw,
      getHistoricalData, pctChangeRows, notNan, List.filter])
    (by norm_num)

/-- C8: for any sentiment `s` and any raw probability `m`, the adjustment
adds exactly `s * 5` to a resistance level and subtracts exactly `s * 5`
from a support level: the boost and the penalty have equal magnitude and
opposite direction. -/
theorem C8_sentiment_symmetry (s m lvR lvS : ℚ)
    (hR : lvR ∈ RESISTANCE_LEVELS) (hS : lvS ∈ SUPPORT_LEVELS) :
    sentAdjust s lvR (PyVal.fin m) - PyVal.fin m = PyVal.fin (s * 5) ∧
    sentAdjust s lvS (PyVal.fin m) - PyVal.fin m = PyVal.fin (-(s * 5)) := by
  have hSR : lvS ∉ RESISTANCE_LEVELS := by
    simp only [SUPPORT_LEVELS, List.mem_cons, List.mem_singleton,
      List.not_mem_nil, or_false] at hS
    rcases hS with h | h <;> rw [h] <;> norm_num [RESISTANCE_LEVELS]
  constructor
  · unfold sentAdjust
    rw [if_pos hR]
    simp only [PyVal.sub_def, PyVal.add_def, PyVal.add, PyVal.neg, PyVal.fin.injEq]
    ring
  · unfold sentAdjust
    rw [if_neg hSR]
    simp only [PyVal.sub_def, PyVal.add_def, PyVal.add, PyVal.neg, PyVal.fin.injEq]
    ring

/-- C8, witness: sentiment 1 and raw probability 1/2 at the configured
levels 604.99 (resistance) and 592.88 (support). -/
theorem C8_witness :
    sentAdjust 1 (60499/100) (PyVal.fin (1/2)) - PyVal.fin (1/2) =
      PyVal.fin ((1 : ℚ) * 5) ∧
    sentAdjust 1 (59288/100) (PyVal.fin (1/2)) - PyVal.fin (1/2) =
      PyVal.fin (-((1 : ℚ) * 5)) :=
  C8_sentiment_symmetry 1 (1/2) (60499/100) (59288/100)
    (by norm_num [RESISTANCE_LEVELS]) (by norm_num [SUPPORT_LEVELS])

/-- C9: on any usable (non-empty) dataframe the returned mapping holds an
entry for every configured level — the union of the support and resistance
lists — with a percentage in [0, 100]; an absent or empty dataframe yields
the distinct data-unavailable outcome instead of any probability map. -/
theorem C9_output_coverage (p v s : ℚ) (df : List Bar) :
    (df ≠ [] → ∃ res, calculate_bayesian_probabilities p v (some df) s =
      ScoreResult.probs res ∧
      ∀ lv ∈ SUPPORT_LEVELS ++ RESISTANCE_LEVELS, ∃ q : ℚ,
        (lv, PyVal.fin q) ∈ res ∧ 0 ≤ q ∧ q ≤ 100) ∧
    calculate_bayesian_probabilities p v none s = ScoreResult.dataUnavailable ∧
    calculate_bayesian_probabilities p v (some []) s =
      ScoreResult.dataUnavailable := by
  refine ⟨?_, rfl, rfl⟩
  intro hdf
  refine ⟨(SUPPORT_LEVELS ++ RESISTANCE_LEVELS).map fun lv =>
      (lv, scoreLevel p v (meanVolume df) df s lv),
    calculate_some p v s df hdf, ?_⟩
  intro lv hlv
  rcases scoreLevel_shape p v (meanVolume df) s lv df with ⟨n, hn, hn0, hn1⟩
  refine ⟨(n : ℚ)/100, ?_, div_nonneg (by exact_mod_cast hn0) (by norm_num), ?_⟩
  · rw [← hn]
    exact List.mem_map_of_mem _ hlv
  · rw [div_le_iff₀ (by norm_num : (0:ℚ) < 100)]
    have h : (n : ℚ) ≤ 10000 := by exact_mod_cast hn1
    linarith

/-- C9, witness: the worked example's dataframe is usable, and every
configured level receives an in-range entry. -/
theorem C9_witness :
    ∃ res, calculate_bayesian_probabilities 597 1200000 (some workedDf) (2/10) =
      ScoreResult.probs res ∧
      ∀ lv ∈ SUPPORT_LEVELS ++ RESISTANCE_LEVELS, ∃ q : ℚ,
        (lv, PyVal.fin q) ∈ res ∧ 0 ≤ q ∧ q ≤ 100 :=
  (C9_output_coverage 597 1200000 (2/10) workedDf).1 workedDf_ne_nil

/-- A two-row dataframe whose returns have zero standard deviation. -/
def dfA : List Bar := [⟨10, 4, PyVal.fin 0⟩, ⟨20, 6, PyVal.fin 0⟩]

/-- A three-row dataframe with the same close range (10 to 20), the same
mean volume (5) and the same (NaN) last rolling momentum as `dfA`, but a
return series with nonzero standard deviation. -/
def dfB : List Bar :=
  [⟨20, 5, PyVal.fin (1/10)⟩, ⟨10, 5, PyVal.fin (-(2/10))⟩, ⟨15, 5, PyVal.fin (1/10)⟩]

/-- C10: the output is independent of the volatility of the return series.
The engine reads the dataframe only through the maximum close, the minimum
close, the mean volume and the last rolling-5 momentum, so two usable
dataframes agreeing on those four statistics — whatever the standard
deviations of their returns — produce identical probability maps (the
`volatility` binding in the source is dead). -/
theorem C10_volatility_independence (p v s : ℚ) (df1 df2 : List Bar)
    (h1 : df1 ≠ []) (h2 : df2 ≠ [])
    (hmax : maxClose df1 = maxClose df2) (hmin : minClose df1 = minClose df2)
    (hvol : meanVolume df1 = meanVolume df2)
    (hmom : rollingMomentum df1 = rollingMomentum df2) :
    calculate_bayesian_probabilities p v (some df1) s =
      calculate_bayesian_probabilities p v (some df2) s := by
  rw [calculate_some p v s df1 h1, calculate_some p v s df2 h2]
  have hfun : ∀ lv : ℚ, scoreLevel p v (meanVolume df1) df1 s lv =
      scoreLevel p v (meanVolume df2) df2 s lv := by
    intro lv
    unfold scoreLevel preClampPct sentAdjust rawProb alphaOf betaValOf levelDistance
      volumeFactor
    rw [hmax, hmin, hvol, hmom]
  simp only [hfun]

/-- C10, witness: `dfA` and `dfB` share the four statistics but have
different return standard deviations (0 versus nonzero) and different
lengths, yet score identically. -/
theorem C10_witness :
    calculate_bayesian_probabilities 597 1200 (some dfA) (1/10) =
      calculate_bayesian_probabilities 597 1200 (some dfB) (1/10) :=
  C10_volatility_independence 597 1200 (1/10) dfA dfB
    (by simp [dfA]) (by simp [dfB])
    (by norm_num [maxClose, minClose, dfA, dfB, max_def, min_def])
    (by norm_num [maxClose, minClose, dfA, dfB, max_def, min_def])
    (by norm_num [meanVolume, dfA, dfB, List.sum])
    (by norm_num [rollingMomentum, dfA, dfB])

end SpyApp
